import Mathlib

/-!
Shallow embedding of the token validation subsystem of
`src/app/utils/auth/jwt_local_validator.py` (class `JWTLocalValidator`).

Conventions of the embedding:
* machine time is modelled as `Int` seconds (`datetime.utcnow()` at a call
  is passed in explicitly as `now`);
* byte strings are `List Nat` with every element `< 256`;
* the JSON payload of a token is a record of optional claim values
  (`Option` = key present / absent in the decoded dict);
* HTTP calls are modelled by an `Env` record holding, per endpoint, the
  outcome the network would deliver (a status/body pair or a raised
  transport exception);
* Python exceptions inside helpers are `Except`; the public entry points
  catch everything and return a result value, exactly as the source does.
-/

/-- JSON values as far as the validator observes them.  The code only ever
checks `isinstance(x, list)`, Python truthiness, `!=` against a string
literal, and passes values through unchanged, so array elements are kept
as strings (the shape the issuer actually produces for `roles`). -/
inductive JValue where
  | jnull
  | jbool (b : Bool)
  | jnum (n : Int)
  | jstr (s : String)
  | jarr (elems : List String)
  deriving Repr, DecidableEq

/-- Python truthiness (`if value:`) on the modelled JSON values. -/
def truthy : JValue → Bool
  | .jnull => false
  | .jbool b => b
  | .jnum n => n != 0
  | .jstr s => s.length != 0
  | .jarr l => l.length != 0

/-- Python `isinstance(value, list)` on the modelled JSON values. -/
def isJList : JValue → Bool
  | .jarr _ => true
  | _ => false

/-- The decoded JWT payload dict.  A field is `none` when the key is absent
from the dict and `some v` when present with value `v` (so a JSON `null`
is `some .jnull`, distinct from absence — just as in a Python dict).
`exp`/`iat` are numeric timestamps, `iss`/`aud`/`type` the string claims
the validator compares against. -/
structure Payload where
  sub : Option JValue
  username : Option JValue
  roles : Option JValue
  email : Option JValue
  phone : Option JValue
  full_name : Option JValue
  is_active : Option JValue
  is_superuser : Option JValue
  exp : Option Int
  iat : Option Int
  iss : Option String
  aud : Option String
  type : Option JValue
  deriving Repr, DecidableEq

/-- A raw bearer token as presented to the validator: either a string that
does not parse as a JWT at all, or a structurally valid JWT carrying its
raw wire string, decoded payload, the key its signature verifies under,
and the algorithm named in its header. -/
inductive TokenInput where
  | malformed (raw : String)
  | signed (raw : String) (payload : Payload) (key : List Nat) (alg : String)
  deriving Repr, DecidableEq

/-- The raw wire string of a token (what `token.encode()` hashes). -/
def rawOf : TokenInput → String
  | .malformed r => r
  | .signed r _ _ _ => r

/-- Model of `jose.jwt.decode(token, options={"verify_signature": False})` as used by
`extract_user_info` / `is_token_expired` / `get_token_expiry`: parse the
payload without any trust check; a `JWTError` on an unparsable token is
modelled as `none`. -/
def parseUnverified : TokenInput → Option Payload
  | .malformed _ => none
  | .signed _ p _ _ => some p

/-- Embedding of `JWTLocalValidator.is_token_expired` (source lines 493-519): parse
without verification; unparsable → `True`; absent `exp` → `True`;
otherwise `current_time > exp`. -/
def is_token_expired (now : Int) (tok : TokenInput) : Bool :=
  match parseUnverified tok with
  | none => true
  | some p =>
    match p.exp with
    | none => true
    | some e => decide (now > e)

/-- Model of Python `datetime.fromtimestamp(ts)` on an integer epoch
timestamp: the resulting `datetime` is represented by the timestamp
itself, and a timestamp outside the range the `datetime` type can
represent (years 1 to 9999; here taken at UTC offset 0 — the exact edge
shifts by the platform's local-time offset, which does not affect any
value this development evaluates it at) raises
`OverflowError`/`ValueError`, modelled as `none`. -/
def fromtimestampPy (ts : Int) : Option Int :=
  if -62135596800 ≤ ts ∧ ts ≤ 253402300799 then some ts else none

/-- Embedding of `JWTLocalValidator.get_token_expiry` (source lines 521-544): parse
without verification; unparsable or absent `exp` → `None` (the `try`
catches only `JWTError`); otherwise `datetime.fromtimestamp(exp)` — whose
`OverflowError`/`ValueError` on an out-of-range `exp` is NOT caught and
propagates to the caller (`.error ()`). -/
def get_token_expiry (tok : TokenInput) : Except Unit (Option Int) :=
  match parseUnverified tok with
  | none => .ok none
  | some p =>
    match p.exp with
    | none => .ok none
    | some e =>
      match fromtimestampPy e with
      | none => .error ()
      | some d => .ok (some d)

/-- The slice of `app.config.settings` the validator reads.
`jwt_secret_key` is kept as its UTF-8 byte string. -/
structure Settings where
  jwt_secret_key : List Nat
  jwt_algorithm : String
  app_name : String
  auth_jwks_endpoint : String
  auth_jwt_config_endpoint : String
  auth_blacklist_endpoint : String
  deriving Repr, DecidableEq

/-- A JWT config document (`_fetch_jwt_config` result / `_get_local_config`):
a dict read with `.get`, so every field is optional. -/
structure Config where
  algorithm : Option String
  issuer : Option String
  audience : Option String
  deriving Repr, DecidableEq

/-- One entry of a JWKS `keys` array; the validator reads `kty` (via
`.get`, absent → `None`) and `k` (via `.get("k", "")`). -/
structure Jwk where
  kty : Option String
  k : String
  alg : Option String
  use : Option String
  kid : Option String
  deriving Repr, DecidableEq

/-- A JWKS document; `jwks.get("keys", [])`. -/
structure JwksDoc where
  keys : List Jwk
  deriving Repr, DecidableEq

/-- Embedding of `_get_local_config` (source lines 58-64). -/
def localConfig (s : Settings) : Config :=
  ⟨some s.jwt_algorithm, some s.app_name, some "microservices"⟩

/-- The urlsafe base64 alphabet: index → character
(`A`-`Z`, `a`-`z`, `0`-`9`, `-`, `_`). -/
def b64char (d : Nat) : Char :=
  if d < 26 then Char.ofNat (65 + d)
  else if d < 52 then Char.ofNat (97 + (d - 26))
  else if d < 62 then Char.ofNat (48 + (d - 52))
  else if d = 62 then '-' else '_'

/-- Character → 6-bit value, accepting both the urlsafe (`-`,`_`) and the
standard (`+`,`/`) alphabet, as Python's `urlsafe_b64decode` does after its
character translation. -/
def b64val (c : Char) : Option Nat :=
  let n := c.toNat
  if 65 ≤ n ∧ n ≤ 90 then some (n - 65)
  else if 97 ≤ n ∧ n ≤ 122 then some (n - 97 + 26)
  else if 48 ≤ n ∧ n ≤ 57 then some (n - 48 + 52)
  else if n = 45 ∨ n = 43 then some 62
  else if n = 95 ∨ n = 47 then some 63
  else none

/-- Python `base64.urlsafe_b64encode(bytes).decode().rstrip("=")` on a byte
string: standard base64 in 3-byte groups, trailing `=` padding stripped. -/
def b64urlEncodeNoPadL : List Nat → List Char
  | [] => []
  | [b0] => [b64char (b0 / 4), b64char (b0 % 4 * 16)]
  | [b0, b1] => [b64char (b0 / 4), b64char (b0 % 4 * 16 + b1 / 16), b64char (b1 % 16 * 4)]
  | b0 :: b1 :: b2 :: rest =>
    b64char (b0 / 4) :: b64char (b0 % 4 * 16 + b1 / 16) ::
      b64char (b1 % 16 * 4 + b2 / 64) :: b64char (b2 % 64) :: b64urlEncodeNoPadL rest

/-- String form of the unpadded urlsafe base64 encoding (the `k` member
synthesized by `_get_local_jwks`). -/
def b64urlEncodeNoPad (bs : List Nat) : String :=
  String.mk (b64urlEncodeNoPadL bs)

/-- Embedding of `_get_local_jwks` (source lines 66-79): a single symmetric JWKS entry
whose `k` is the unpadded urlsafe base64 of the signing secret. -/
def localJwks (s : Settings) : JwksDoc :=
  ⟨[⟨some "oct", b64urlEncodeNoPad s.jwt_secret_key,
     some s.jwt_algorithm, some "sig", some "user-service-key-1"⟩]⟩

/-- The padding restoration in `verify_token`'s key-selection loop
(source line 252): `k += "=" * (4 - len(k) % 4)` — note this appends FOUR
`=` characters when `len(k)` is already a multiple of 4. -/
def padFix (s : String) : String :=
  s ++ String.mk (List.replicate (4 - s.length % 4) '=')

/-- The decoding loop of CPython's `binascii.a2b_base64` in non-strict
mode (what `base64.urlsafe_b64decode` calls after character translation):
one pass over the characters keeping the position inside the current
4-character group (`quadPos`), the leftover bits of the previous character
(`leftchar`), and the number of consecutive pad characters seen (`pads`).
Data bytes are emitted eagerly; a pad sequence that completes a group of
at least two data characters ends the decode successfully; unknown
characters are skipped; ending mid-group is an error (`none`). -/
def b64decodeLoop : List Char → Nat → Nat → Nat → List Nat → Option (List Nat)
  | [], quadPos, _, _, acc => if quadPos = 0 then some acc else none
  | c :: rest, quadPos, leftchar, pads, acc =>
    if c = '=' then
      if 2 ≤ quadPos ∧ 4 ≤ quadPos + (pads + 1) then some acc
      else b64decodeLoop rest quadPos leftchar (pads + 1) acc
    else
      match b64val c with
      | none => b64decodeLoop rest quadPos leftchar 0 acc
      | some d =>
        if quadPos = 0 then b64decodeLoop rest 1 d 0 acc
        else if quadPos = 1 then
          b64decodeLoop rest 2 (d % 16) 0 (acc ++ [leftchar * 4 + d / 16])
        else if quadPos = 2 then
          b64decodeLoop rest 3 (d % 4) 0 (acc ++ [leftchar * 16 + d / 4])
        else b64decodeLoop rest 0 0 0 (acc ++ [leftchar * 64 + d])

/-- Python `base64.urlsafe_b64decode` on a string, `none` modelling a raised
`binascii.Error`. -/
def b64urlDecodePy (s : String) : Option (List Nat) :=
  b64decodeLoop s.data 0 0 0 []

/-- The constructor state of a `JWTLocalValidator` (`__init__`,
source lines 26-50): the two TTLs and the mode, plus the issuer base URL
used to build endpoint URLs in Remote mode. -/
structure Validator where
  cache_ttl : Int
  blacklist_cache_ttl : Int
  use_local : Bool
  user_service_url : String
  deriving Repr, DecidableEq

/-- The mutable cache fields of a validator instance
(`_jwks_cache`/`_jwks_cache_time` etc.). -/
structure CacheState where
  jwks_cache : Option JwksDoc
  jwks_cache_time : Option Int
  config_cache : Option Config
  config_cache_time : Option Int
  blacklist_cache : Option (List String)
  blacklist_cache_time : Option Int
  deriving Repr, DecidableEq

/-- The freshly constructed cache state (all fields `None`). -/
def CacheState.initial : CacheState :=
  ⟨none, none, none, none, none, none⟩

/-- Embedding of `_is_cache_valid` (source lines 81-85): NOTE that the source compares
the age against `self.cache_ttl` for every artifact — `blacklist_cache_ttl`
is stored by `__init__` but read nowhere. -/
def is_cache_valid (v : Validator) (now : Int) : Option Int → Bool
  | none => false
  | some t => decide (now - t < v.cache_ttl)

/-- An HTTP interaction outcome: a delivered response (status plus
already-JSON-decoded body) or a raised transport exception. -/
inductive HttpOutcome (α : Type) where
  | resp (status : Nat) (body : α)
  | exn
  deriving Repr, DecidableEq

/-- The external world of one validation call in Remote mode: what each of
the three issuer endpoints would answer, and the token fingerprint
function (an abstract model of `hashlib.sha256(...).hexdigest()`). -/
structure Env where
  jwksResp : HttpOutcome JwksDoc
  configResp : HttpOutcome Config
  blacklistResp : HttpOutcome (List String)
  sha256hex : String → String

/-- The `error_code`/`details` carried by a raised `JWTValidationError`
(the `message` strings are irrelevant to control flow and elided). -/
inductive ErrDetails where
  | noDetails
  | fetchInfo (status_code : Nat) (url : String)
  | missingField (missing_field : String)
  | fieldType (field : String) (expected_type : String)
  | inactiveUser (user_id : Option JValue)
  deriving Repr, DecidableEq

/-- A raised `JWTValidationError`: its `error_code` and `details`. -/
structure VErr where
  code : String
  details : ErrDetails
  deriving Repr, DecidableEq

/-- Embedding of `_fetch_jwks` (source lines 87-109): 200 → body; other status →
`JWKS_FETCH_ERROR` recording status and URL; transport exception →
`JWKS_FETCH_EXCEPTION`. -/
def fetch_jwks (v : Validator) (s : Settings) (env : Env) : Except VErr JwksDoc :=
  match env.jwksResp with
  | .resp status body =>
    if status = 200 then .ok body
    else .error ⟨"JWKS_FETCH_ERROR",
      .fetchInfo status (v.user_service_url ++ s.auth_jwks_endpoint)⟩
  | .exn => .error ⟨"JWKS_FETCH_EXCEPTION", .noDetails⟩

/-- Embedding of `_fetch_jwt_config` (source lines 111-134). -/
def fetch_jwt_config (v : Validator) (s : Settings) (env : Env) : Except VErr Config :=
  match env.configResp with
  | .resp status body =>
    if status = 200 then .ok body
    else .error ⟨"CONFIG_FETCH_ERROR",
      .fetchInfo status (v.user_service_url ++ s.auth_jwt_config_endpoint)⟩
  | .exn => .error ⟨"CONFIG_FETCH_EXCEPTION", .noDetails⟩

/-- Embedding of `_fetch_blacklist` (source lines 136-154): 200 → the fingerprint list;
non-200 status or any exception → `[]` (fail-open, only logged). -/
def fetch_blacklist (env : Env) : List String :=
  match env.blacklistResp with
  | .resp status body => if status = 200 then body else []
  | .exn => []

/-- Embedding of `get_jwks` (source lines 180-187): Local mode returns the locally
synthesized JWKS; Remote mode re-fetches when the cache is stale (age
checked by `_is_cache_valid`) and otherwise returns the cached field
verbatim (an `Option`, since the field may be `None`). -/
def get_jwks (v : Validator) (s : Settings) (env : Env) (st : CacheState) (now : Int) :
    Except VErr (Option JwksDoc × CacheState) :=
  if v.use_local then .ok (some (localJwks s), st)
  else if ¬ is_cache_valid v now st.jwks_cache_time then
    match fetch_jwks v s env with
    | .error e => .error e
    | .ok doc => .ok (some doc, { st with jwks_cache := some doc, jwks_cache_time := some now })
  else .ok (st.jwks_cache, st)

/-- Embedding of `get_jwt_config` (source lines 189-196), same caching shape as
`get_jwks`. -/
def get_jwt_config (v : Validator) (s : Settings) (env : Env) (st : CacheState) (now : Int) :
    Except VErr (Option Config × CacheState) :=
  if v.use_local then .ok (some (localConfig s), st)
  else if ¬ is_cache_valid v now st.config_cache_time then
    match fetch_jwt_config v s env with
    | .error e => .error e
    | .ok cfg => .ok (some cfg, { st with config_cache := some cfg, config_cache_time := some now })
  else .ok (st.config_cache, st)

/-- Embedding of `_get_blacklist_cache` (source lines 172-178): when
`_is_cache_valid(self._blacklist_cache_time)` says stale, re-fetch and
stamp; return `self._blacklist_cache or []`. -/
def get_blacklist_cache (v : Validator) (env : Env) (st : CacheState) (now : Int) :
    List String × CacheState :=
  let st' :=
    if ¬ is_cache_valid v now st.blacklist_cache_time then
      { st with blacklist_cache := some (fetch_blacklist env), blacklist_cache_time := some now }
    else st
  ((st'.blacklist_cache.getD []), st')

/-- Embedding of `_is_token_blacklisted` (source lines 156-170): fingerprint the raw
token and test membership in the (cached) fingerprint list; any exception
would yield `False`, but no sub-step of the model can raise. -/
def is_token_blacklisted (v : Validator) (env : Env) (st : CacheState) (now : Int)
    (tok : TokenInput) : Bool × CacheState :=
  let (bl, st') := get_blacklist_cache v env st now
  (bl.contains (env.sha256hex (rawOf tok)), st')

/-- Model of `jose.jwt.decode(token, key, algorithms=[alg], issuer=…, audience=…)`
with all verification options on: the signature must verify under `key`
with header algorithm `alg`; when an expected issuer is configured the
`iss` claim must equal it; an `aud` claim, when present, must equal the
expected audience; an `exp` claim, when present, must not lie strictly in
the past.  Any failure raises a `JWTError` (the kinds are
indistinguishable to the caller, which catches the base class). -/
def jwtDecode (now : Int) (tok : TokenInput) (key : List Nat) (alg : String)
    (issOpt audOpt : Option String) : Except Unit Payload :=
  match tok with
  | .malformed _ => .error ()
  | .signed _ p k a =>
    if k ≠ key ∨ a ≠ alg then .error ()
    else if issOpt.isSome ∧ p.iss ≠ issOpt then .error ()
    else if p.aud.isSome ∧ p.aud ≠ audOpt then .error ()
    else
      match p.exp with
      | some e => if e < now then .error () else .ok p
      | none => .ok p

/-- Embedding of `_validate_payload_fields` (source lines 198-224): `sub`, `username`,
`roles` must be present (in that order), `roles` must be a list, and a
present-and-falsy `is_active` raises `USER_INACTIVE`. -/
def validate_payload_fields (p : Payload) : Except VErr Unit :=
  if p.sub.isNone then .error ⟨"MISSING_REQUIRED_FIELD", .missingField "sub"⟩
  else if p.username.isNone then .error ⟨"MISSING_REQUIRED_FIELD", .missingField "username"⟩
  else if p.roles.isNone then .error ⟨"MISSING_REQUIRED_FIELD", .missingField "roles"⟩
  else if ¬ isJList (p.roles.getD .jnull) then
    .error ⟨"INVALID_FIELD_TYPE", .fieldType "roles" "list"⟩
  else if ¬ truthy (p.is_active.getD (.jbool true)) then
    .error ⟨"USER_INACTIVE", .inactiveUser p.sub⟩
  else .ok ()

/-- The token-type check (`token_type = payload.get("type"); if token_type
and token_type != "access"`): `some actual` when the check rejects. -/
def typeCheckFail (p : Payload) : Option JValue :=
  match p.type with
  | some t => if truthy t ∧ t ≠ .jstr "access" then some t else none
  | none => none

/-- The `data` dict assembled for a successful validation (identical at
source lines 310-328 and 409-427): the payload echoed back with
`is_superuser` defaulting to `False`, `is_active` to `True` and `roles`
to `[]` when absent. -/
structure UserInfo where
  user_id : Option JValue
  username : Option JValue
  roles : JValue
  email : Option JValue
  phone : Option JValue
  full_name : Option JValue
  is_superuser : JValue
  is_active : JValue
  exp : Option Int
  iat : Option Int
  iss : Option String
  aud : Option String
  deriving Repr, DecidableEq

/-- Assembly of the success `data` from the decoded payload. -/
def userInfoOf (p : Payload) : UserInfo :=
  { user_id := p.sub
    username := p.username
    roles := p.roles.getD (.jarr [])
    email := p.email
    phone := p.phone
    full_name := p.full_name
    is_superuser := p.is_superuser.getD (.jbool false)
    is_active := p.is_active.getD (.jbool true)
    exp := p.exp
    iat := p.iat
    iss := p.iss
    aud := p.aud }

/-- The result dicts `verify_token` / `_verify_token_local_async` return,
one constructor per distinct return site. -/
inductive VResult where
  | useAsync
  | noSecretKey
  | invalidTokenType (actual : JValue)
  | tokenBlacklisted
  | accepted (info : UserInfo)
  | validationError (error_code : String) (details : ErrDetails)
  | jwtDecodeError
  | validationException
  deriving Repr, DecidableEq

/-- The `success` field of the returned dict: `True` only on the
validation-success return. -/
def VResult.success : VResult → Bool
  | .accepted _ => true
  | _ => false

/-- The `error_code` carried in the returned dict's `data` (the literal
string at each return site; `none` on success, which carries no code). -/
def VResult.errorCode : VResult → Option String
  | .useAsync => some "USE_VERIFY_TOKEN_ASYNC"
  | .noSecretKey => some "NO_SECRET_KEY"
  | .invalidTokenType _ => some "INVALID_TOKEN_TYPE"
  | .tokenBlacklisted => some "TOKEN_BLACKLISTED"
  | .accepted _ => none
  | .validationError c _ => some c
  | .jwtDecodeError => some "JWT_DECODE_ERROR"
  | .validationException => some "VALIDATION_EXCEPTION"

/-- Strict UTF-8 validity of a byte string, as Python's
`bytes.decode("utf-8")` checks it: ASCII, and 2/3/4-byte sequences with
the standard lead/continuation ranges, overlongs and surrogates
(`ED A0..BF`) excluded. -/
def isValidUtf8 : List Nat → Bool
  | [] => true
  | b :: rest =>
    if b ≤ 127 then isValidUtf8 rest
    else if 194 ≤ b ∧ b ≤ 223 then
      match rest with
      | c1 :: rest2 => decide (128 ≤ c1 ∧ c1 ≤ 191) && isValidUtf8 rest2
      | [] => false
    else if 224 ≤ b ∧ b ≤ 239 then
      match rest with
      | c1 :: c2 :: rest3 =>
        decide (((b = 224 ∧ 160 ≤ c1 ∧ c1 ≤ 191) ∨
            (225 ≤ b ∧ b ≤ 236 ∧ 128 ≤ c1 ∧ c1 ≤ 191) ∨
            (b = 237 ∧ 128 ≤ c1 ∧ c1 ≤ 159) ∨
            (238 ≤ b ∧ 128 ≤ c1 ∧ c1 ≤ 191)) ∧
          128 ≤ c2 ∧ c2 ≤ 191) && isValidUtf8 rest3
      | _ => false
    else if 240 ≤ b ∧ b ≤ 244 then
      match rest with
      | c1 :: c2 :: c3 :: rest4 =>
        decide (((b = 240 ∧ 144 ≤ c1 ∧ c1 ≤ 191) ∨
            (241 ≤ b ∧ b ≤ 243 ∧ 128 ≤ c1 ∧ c1 ≤ 191) ∨
            (b = 244 ∧ 128 ≤ c1 ∧ c1 ≤ 143)) ∧
          128 ≤ c2 ∧ c2 ≤ 191 ∧ 128 ≤ c3 ∧ c3 ≤ 191) && isValidUtf8 rest4
      | _ => false
    else false

/-- Outcome of `verify_token`'s key-selection loop (source lines 246-256):
no `kty == "oct"` entry leaves `secret_key = None`; the first such entry's
`k` is padded (`padFix`), base64-decoded, and the bytes decoded as UTF-8
(line 253) — a `binascii` or `UnicodeDecodeError` exception propagates
(`raised`), an empty result is falsy and indistinguishable from no key
(`if not secret_key`).  The resulting `str` is represented by its UTF-8
bytes, like every string of the embedding. -/
inductive KeySel where
  | raised
  | noKey
  | secret (bytes : List Nat)
  deriving Repr, DecidableEq

/-- The key-selection loop, the `.decode("utf-8")` step, and the
falsiness check on `secret_key`. -/
def selectKey (jwks : JwksDoc) : KeySel :=
  match jwks.keys.find? (fun key => key.kty == some "oct") with
  | none => .noKey
  | some key =>
    match b64urlDecodePy (padFix key.k) with
    | none => .raised
    | some bs =>
      if isValidUtf8 bs then
        if bs = [] then .noKey else .secret bs
      else .raised

/-- Embedding of `verify_token` (source lines 226-355), the blocking entry point.
Local mode returns the sentinel before any other work.  Remote mode runs
config fetch → JWKS fetch → key selection → signature/claims decode →
payload-field validation → token-type check → blacklist check, with the
`try/except` structure mapping: a raised `JWTValidationError` → the
`validation_error` result carrying its code and details, a `JWTError` →
the `JWT_DECODE_ERROR` result, any other exception → the
`VALIDATION_EXCEPTION` result.  Cache mutations performed before a raise
are kept, so the cache state is threaded and returned. -/
def verify_token (v : Validator) (s : Settings) (env : Env) (st : CacheState) (now : Int)
    (tok : TokenInput) : VResult × CacheState :=
  if v.use_local then (.useAsync, st)
  else
    match get_jwt_config v s env st now with
    | .error e => (.validationError e.code e.details, st)
    | .ok (cfgOpt, st1) =>
      match cfgOpt with
      | none => (.validationException, st1)
      | some cfg =>
        match get_jwks v s env st1 now with
        | .error e => (.validationError e.code e.details, st1)
        | .ok (jwksOpt, st2) =>
          match jwksOpt with
          | none => (.validationException, st2)
          | some jwks =>
            match selectKey jwks with
            | .raised => (.validationException, st2)
            | .noKey => (.noSecretKey, st2)
            | .secret secret =>
              match jwtDecode now tok secret (cfg.algorithm.getD "HS256")
                  cfg.issuer cfg.audience with
              | .error _ => (.jwtDecodeError, st2)
              | .ok p =>
                match validate_payload_fields p with
                | .error e => (.validationError e.code e.details, st2)
                | .ok _ =>
                  match typeCheckFail p with
                  | some actual => (.invalidTokenType actual, st2)
                  | none =>
                    let (bl, st3) := is_token_blacklisted v env st2 now tok
                    if bl then (.tokenBlacklisted, st3)
                    else (.accepted (userInfoOf p), st3)

/-- Modelled from the spec: `JWTService.is_blacklisted` — the Local-mode
revocation store (`app.domains.services.auth_mgmt.jwt_service`, not under
`src/`).  Per the spec's Revocation Oracle (§4.3) it answers whether the
token is revoked and its errors propagate to the caller; we model one
call's outcome as either an answer or a raised store exception. -/
def StoreOutcome : Type := Except Unit Bool

/-- Embedding of `_verify_token_local_async` (source lines 366-448): decode against the
local settings (secret, algorithm, issuer = app name, audience
"microservices"), validate payload fields, check the token type, then ask
the revocation store.  The same `try/except` mapping as `verify_token`
applies; in particular a store exception is caught by the generic
`except Exception` handler and becomes the `VALIDATION_EXCEPTION`
result. -/
def verify_token_local_async (s : Settings) (now : Int) (store : StoreOutcome)
    (tok : TokenInput) : VResult :=
  match jwtDecode now tok s.jwt_secret_key s.jwt_algorithm
      (localConfig s).issuer (localConfig s).audience with
  | .error _ => .jwtDecodeError
  | .ok p =>
    match validate_payload_fields p with
    | .error e => .validationError e.code e.details
    | .ok _ =>
      match typeCheckFail p with
      | some actual => .invalidTokenType actual
      | none =>
        match store with
        | .error _ => .validationException
        | .ok true => .tokenBlacklisted
        | .ok false => .accepted (userInfoOf p)

/-- Embedding of `verify_token_async` (source lines 357-364): Local mode delegates to
`_verify_token_local_async` (no cache is touched); Remote mode runs the
blocking `verify_token` on an executor. -/
def verify_token_async (v : Validator) (s : Settings) (env : Env) (st : CacheState)
    (now : Int) (store : StoreOutcome) (tok : TokenInput) : VResult × CacheState :=
  if v.use_local then (verify_token_local_async s now store tok, st)
  else verify_token v s env st now tok

/-- Sample decoded payload for concrete witnesses: the spec's §8 scenario
token `{sub: "u1", username: "alice", roles: ["admin"], exp: now+3600}`
with issuer `svc` and audience `microservices`. -/
def samplePayload : Payload :=
  ⟨some (.jstr "u1"), some (.jstr "alice"), some (.jarr ["admin"]),
   none, none, none, none, none, some 1000, some 0, some "svc", some "microservices", none⟩

/-- Sample settings: secret `s3cr3t` (UTF-8 bytes), HS256, app name `svc`,
default endpoint paths. -/
def sampleSettings : Settings :=
  ⟨[115, 51, 99, 114, 51, 116], "HS256", "svc",
   "/api/v1/jwt/.well-known/jwks.json", "/api/v1/jwt/jwt-config", "/api/v1/jwt/blacklist"⟩

/-- A token carrying `samplePayload`, signed with `sampleSettings`'s
secret under HS256. -/
def sampleToken : TokenInput :=
  .signed "hdr.pld.sig" samplePayload [115, 51, 99, 114, 51, 116] "HS256"

/-- An environment in which all three issuer endpoints answer 200 with
benign bodies and the fingerprint function is constant. -/
def sampleEnvOk : Env :=
  ⟨.resp 200 (localJwks sampleSettings),
   .resp 200 ⟨some "HS256", some "svc", some "microservices"⟩,
   .resp 200 [], fun _ => "fp"⟩

/-- An environment whose key-set endpoint answers HTTP 500. -/
def sampleEnv500 : Env :=
  ⟨.resp 500 ⟨[]⟩,
   .resp 200 ⟨some "HS256", some "svc", some "microservices"⟩,
   .resp 200 [], fun _ => "fp"⟩

/-- A Remote-mode validator with the constructor-default TTLs. -/
def remoteValidator : Validator :=
  ⟨3600, 300, false, "http://issuer"⟩

/-- Copy of `samplePayload` with `is_active` present and `False`. -/
def inactivePayload : Payload :=
  { samplePayload with is_active := some (.jbool false) }

/-- A token carrying `inactivePayload`, signed with the sample secret. -/
def inactiveToken : TokenInput :=
  .signed "hdr2.pld2.sig2" inactivePayload [115, 51, 99, 114, 51, 116] "HS256"

/-- Copy of `samplePayload` with the token-type claim set to `"refresh"`. -/
def refreshPayload : Payload :=
  { samplePayload with type := some (.jstr "refresh") }

/-- A token carrying `refreshPayload`, signed with the sample secret. -/
def refreshToken : TokenInput :=
  .signed "hdr3.pld3.sig3" refreshPayload [115, 51, 99, 114, 51, 116] "HS256"

/-- Copy of `samplePayload` whose `exp` claim (`10^20`) lies far outside
the range `datetime.fromtimestamp` can represent on any platform. -/
def overflowPayload : Payload :=
  { samplePayload with exp := some 100000000000000000000 }

/-- A parsable token carrying `overflowPayload`, signed with the sample
secret. -/
def overflowToken : TokenInput :=
  .signed "hdr4.pld4.sig4" overflowPayload [115, 51, 99, 114, 51, 116] "HS256"

/-- Every `error_code` string that a result of `verify_token` /
`verify_token_async` can carry (the literals of the return sites plus the
codes of every `JWTValidationError` raised inside the subsystem). -/
def knownErrorCodes : List String :=
  ["USE_VERIFY_TOKEN_ASYNC", "NO_SECRET_KEY", "INVALID_TOKEN_TYPE", "TOKEN_BLACKLISTED",
   "JWKS_FETCH_ERROR", "JWKS_FETCH_EXCEPTION", "CONFIG_FETCH_ERROR", "CONFIG_FETCH_EXCEPTION",
   "MISSING_REQUIRED_FIELD", "INVALID_FIELD_TYPE", "USER_INACTIVE",
   "JWT_DECODE_ERROR", "VALIDATION_EXCEPTION"]

/-- A verification result is a structured outcome: either the success
dict (success flag `True`, no error code) or a rejection/failure dict
(success flag `False` with one of the subsystem's error codes). -/
def resultWellFormed (r : VResult) : Prop :=
  (r.success = true ∧ r.errorCode = none ∧ ∃ info, r = .accepted info) ∨
  (r.success = false ∧ ∃ c, r.errorCode = some c ∧ c ∈ knownErrorCodes)

theorem b64val_b64char : ∀ d : Nat, d < 64 → b64val (b64char d) = some d := by decide

theorem b64char_ne_pad : ∀ d : Nat, d < 64 → b64char d ≠ '=' := by decide

theorem decodeLoop_step0 (c : Char) (rest : List Char) (lc pads : Nat) (acc : List Nat)
    (d : Nat) (hv : b64val c = some d) (hne : c ≠ '=') :
    b64decodeLoop (c :: rest) 0 lc pads acc = b64decodeLoop rest 1 d 0 acc := by
  simp [b64decodeLoop, hne, hv]

theorem decodeLoop_step1 (c : Char) (rest : List Char) (lc pads : Nat) (acc : List Nat)
    (d : Nat) (hv : b64val c = some d) (hne : c ≠ '=') :
    b64decodeLoop (c :: rest) 1 lc pads acc
      = b64decodeLoop rest 2 (d % 16) 0 (acc ++ [lc * 4 + d / 16]) := by
  simp [b64decodeLoop, hne, hv]

theorem decodeLoop_step2 (c : Char) (rest : List Char) (lc pads : Nat) (acc : List Nat)
    (d : Nat) (hv : b64val c = some d) (hne : c ≠ '=') :
    b64decodeLoop (c :: rest) 2 lc pads acc
      = b64decodeLoop rest 3 (d % 4) 0 (acc ++ [lc * 16 + d / 4]) := by
  simp [b64decodeLoop, hne, hv]

theorem decodeLoop_step3 (c : Char) (rest : List Char) (lc pads : Nat) (acc : List Nat)
    (d : Nat) (hv : b64val c = some d) (hne : c ≠ '=') :
    b64decodeLoop (c :: rest) 3 lc pads acc
      = b64decodeLoop rest 0 0 0 (acc ++ [lc * 64 + d]) := by
  simp [b64decodeLoop, hne, hv]

theorem decodeLoop_quad (b0 b1 b2 : Nat) (rest : List Char) (acc : List Nat)
    (h0 : b0 < 256) (h1 : b1 < 256) (h2 : b2 < 256) :
    b64decodeLoop (b64char (b0 / 4) :: b64char (b0 % 4 * 16 + b1 / 16) ::
        b64char (b1 % 16 * 4 + b2 / 64) :: b64char (b2 % 64) :: rest) 0 0 0 acc
      = b64decodeLoop rest 0 0 0 (acc ++ [b0, b1, b2]) := by
  rw [decodeLoop_step0 _ _ _ _ _ _ (b64val_b64char (b0 / 4) (by omega))
      (b64char_ne_pad (b0 / 4) (by omega)),
    decodeLoop_step1 _ _ _ _ _ _ (b64val_b64char (b0 % 4 * 16 + b1 / 16) (by omega))
      (b64char_ne_pad (b0 % 4 * 16 + b1 / 16) (by omega)),
    decodeLoop_step2 _ _ _ _ _ _ (b64val_b64char (b1 % 16 * 4 + b2 / 64) (by omega))
      (b64char_ne_pad (b1 % 16 * 4 + b2 / 64) (by omega)),
    decodeLoop_step3 _ _ _ _ _ _ (b64val_b64char (b2 % 64) (by omega))
      (b64char_ne_pad (b2 % 64) (by omega))]
  have e1 : b0 / 4 * 4 + (b0 % 4 * 16 + b1 / 16) / 16 = b0 := by omega
  have e2 : (b0 % 4 * 16 + b1 / 16) % 16 * 16 + (b1 % 16 * 4 + b2 / 64) / 4 = b1 := by omega
  have e3 : (b1 % 16 * 4 + b2 / 64) % 4 * 64 + b2 % 64 = b2 := by omega
  rw [e1, e2, e3]
  simp

theorem decodeLoop_tail0 (acc : List Nat) :
    b64decodeLoop ['=', '=', '=', '='] 0 0 0 acc = some acc := by
  simp [b64decodeLoop]

theorem decodeLoop_tail1 (b0 : Nat) (acc : List Nat) (h0 : b0 < 256) :
    b64decodeLoop [b64char (b0 / 4), b64char (b0 % 4 * 16), '=', '='] 0 0 0 acc
      = some (acc ++ [b0]) := by
  rw [decodeLoop_step0 _ _ _ _ _ _ (b64val_b64char (b0 / 4) (by omega))
      (b64char_ne_pad (b0 / 4) (by omega)),
    decodeLoop_step1 _ _ _ _ _ _ (b64val_b64char (b0 % 4 * 16) (by omega))
      (b64char_ne_pad (b0 % 4 * 16) (by omega))]
  have e1 : b0 / 4 * 4 + b0 % 4 * 16 / 16 = b0 := by omega
  rw [e1]
  simp [b64decodeLoop]

theorem decodeLoop_tail2 (b0 b1 : Nat) (acc : List Nat) (h0 : b0 < 256) (h1 : b1 < 256) :
    b64decodeLoop [b64char (b0 / 4), b64char (b0 % 4 * 16 + b1 / 16),
        b64char (b1 % 16 * 4), '='] 0 0 0 acc = some (acc ++ [b0, b1]) := by
  rw [decodeLoop_step0 _ _ _ _ _ _ (b64val_b64char (b0 / 4) (by omega))
      (b64char_ne_pad (b0 / 4) (by omega)),
    decodeLoop_step1 _ _ _ _ _ _ (b64val_b64char (b0 % 4 * 16 + b1 / 16) (by omega))
      (b64char_ne_pad (b0 % 4 * 16 + b1 / 16) (by omega)),
    decodeLoop_step2 _ _ _ _ _ _ (b64val_b64char (b1 % 16 * 4) (by omega))
      (b64char_ne_pad (b1 % 16 * 4) (by omega))]
  have e1 : b0 / 4 * 4 + (b0 % 4 * 16 + b1 / 16) / 16 = b0 := by omega
  have e2 : (b0 % 4 * 16 + b1 / 16) % 16 * 16 + b1 % 16 * 4 / 4 = b1 := by omega
  rw [e1, e2]
  simp [b64decodeLoop]

theorem b64_roundtrip_aux :
    ∀ (n : Nat) (bs : List Nat), bs.length ≤ n → (∀ b ∈ bs, b < 256) → ∀ acc : List Nat,
      b64decodeLoop (b64urlEncodeNoPadL bs
          ++ List.replicate (4 - (b64urlEncodeNoPadL bs).length % 4) '=') 0 0 0 acc
        = some (acc ++ bs) := by
  intro n
  induction n with
  | zero =>
    intro bs hlen _ acc
    have : bs = [] := List.eq_nil_of_length_eq_zero (Nat.le_zero.mp hlen)
    subst this
    simpa [b64urlEncodeNoPadL, List.replicate] using decodeLoop_tail0 acc
  | succ n ih =>
    intro bs hlen hb acc
    match bs with
    | [] =>
      simpa [b64urlEncodeNoPadL, List.replicate] using decodeLoop_tail0 acc
    | [b0] =>
      have h0 : b0 < 256 := hb b0 (by simp)
      simpa [b64urlEncodeNoPadL, List.replicate] using decodeLoop_tail1 b0 acc h0
    | [b0, b1] =>
      have h0 : b0 < 256 := hb b0 (by simp)
      have h1 : b1 < 256 := hb b1 (by simp)
      simpa [b64urlEncodeNoPadL, List.replicate] using decodeLoop_tail2 b0 b1 acc h0 h1
    | b0 :: b1 :: b2 :: rest =>
      have h0 : b0 < 256 := hb b0 (by simp)
      have h1 : b1 < 256 := hb b1 (by simp)
      have h2 : b2 < 256 := hb b2 (by simp)
      have hrest : ∀ b ∈ rest, b < 256 := fun b hbm => hb b (by simp [hbm])
      have hlen' : rest.length ≤ n := by
        simp [List.length_cons] at hlen; omega
      have hpad : 4 - (b64urlEncodeNoPadL (b0 :: b1 :: b2 :: rest)).length % 4
          = 4 - (b64urlEncodeNoPadL rest).length % 4 := by
        simp [b64urlEncodeNoPadL, List.length_cons]
        omega
      rw [hpad]
      have hsplit : b64urlEncodeNoPadL (b0 :: b1 :: b2 :: rest)
          ++ List.replicate (4 - (b64urlEncodeNoPadL rest).length % 4) '='
          = b64char (b0 / 4) :: b64char (b0 % 4 * 16 + b1 / 16) ::
              b64char (b1 % 16 * 4 + b2 / 64) :: b64char (b2 % 64) ::
              (b64urlEncodeNoPadL rest
                ++ List.replicate (4 - (b64urlEncodeNoPadL rest).length % 4) '=') := by
        simp [b64urlEncodeNoPadL]
      rw [hsplit, decodeLoop_quad b0 b1 b2 _ acc h0 h1 h2,
        ih rest hlen' hrest (acc ++ [b0, b1, b2])]
      simp

/-- C10: key encoding round-trip — for every signing-secret byte string,
the unpadded urlsafe base64 `k` produced by `_get_local_jwks`
(`b64urlEncodeNoPad`), after the padding restoration of `verify_token`'s
key-selection loop (`padFix`, which appends four `=` when the length is
already a multiple of 4), decodes under Python's lenient
`urlsafe_b64decode` back to exactly the original secret bytes. -/
theorem C10_key_roundtrip (secret : List Nat) (h : ∀ b ∈ secret, b < 256) :
    b64urlDecodePy (padFix (b64urlEncodeNoPad secret)) = some secret := by
  have hx := b64_roundtrip_aux secret.length secret le_rfl h []
  simpa [b64urlDecodePy, padFix, b64urlEncodeNoPad, String.data_append, String.length] using hx

/-- Witness for C10 at the secret `s3cr3t` (six bytes, so the unpadded `k`
has length 8, a multiple of 4, and `padFix` appends four `=`). -/
theorem C10_key_roundtrip_witness :
    (∀ b ∈ [115, 51, 99, 114, 51, 116], b < 256) ∧
      b64urlDecodePy (padFix (b64urlEncodeNoPad [115, 51, 99, 114, 51, 116]))
        = some [115, 51, 99, 114, 51, 116] :=
  ⟨by decide, C10_key_roundtrip [115, 51, 99, 114, 51, 116] (by decide)⟩

/-- C6: in Local mode the blocking `verify_token` returns, for every
token, the `USE_VERIFY_TOKEN_ASYNC` sentinel result, consulting no cache
(the cache state is returned untouched) and doing no verification work
(the environment and token are never examined). -/
theorem C6_local_sync_sentinel (v : Validator) (s : Settings) (env : Env)
    (st : CacheState) (now : Int) (tok : TokenInput) (h : v.use_local = true) :
    verify_token v s env st now tok = (.useAsync, st) := by
  simp [verify_token, h]

/-- Witness for C6 at a concrete Local-mode validator and token. -/
theorem C6_local_sync_sentinel_witness :
    verify_token ⟨3600, 300, true, ""⟩ sampleSettings sampleEnvOk CacheState.initial 500
      sampleToken = (.useAsync, CacheState.initial) :=
  C6_local_sync_sentinel _ _ _ _ _ _ rfl

/-- C1 (code bug): with the constructor defaults (`cache_ttl = 3600`,
`blacklist_cache_ttl = 300`), a blacklist cached 400 seconds ago — older
than `blacklist_cache_ttl` — is still served from the cache and no
re-fetch happens, whatever the revocation endpoint would answer:
`_get_blacklist_cache` checks freshness with `_is_cache_valid`, which
compares every age against `cache_ttl`; `blacklist_cache_ttl` is stored
by `__init__` and read nowhere. -/
theorem C1_blacklist_ttl_never_used (resp : HttpOutcome (List String))
    (hash : String → String) :
    get_blacklist_cache ⟨3600, 300, false, "http://issuer"⟩ ⟨.exn, .exn, resp, hash⟩
        ⟨none, none, none, none, some ["fp1"], some 0⟩ 400
      = (["fp1"], ⟨none, none, none, none, some ["fp1"], some 0⟩) := by
  simp [get_blacklist_cache, is_cache_valid]

/-- C7: `is_token_expired` (total by construction, so it never raises)
returns `true` exactly when the token is unparsable, or the `exp` claim
is absent, or the `exp` claim is strictly earlier than the current time;
in particular a parsable token without `exp` is reported expired. -/
theorem C7_is_token_expired_iff (now : Int) (tok : TokenInput) :
    is_token_expired now tok = true ↔
      (parseUnverified tok = none ∨
        ∃ p, parseUnverified tok = some p ∧
          (p.exp = none ∨ ∃ e, p.exp = some e ∧ e < now)) := by
  cases tok with
  | malformed r => simp [is_token_expired, parseUnverified]
  | signed r p k a =>
    cases hexp : p.exp with
    | none => simp [is_token_expired, parseUnverified, hexp]
    | some e =>
      simp only [is_token_expired, parseUnverified, hexp, decide_eq_true_eq,
        Option.some.injEq, gt_iff_lt]
      constructor
      · intro hlt
        exact Or.inr ⟨p, rfl, Or.inr ⟨e, hexp, hlt⟩⟩
      · rintro (hno | ⟨p', hp', (hpe | ⟨e', he', hlt⟩)⟩)
        · exact absurd hno (by simp)
        · cases hp'; simp [hexp] at hpe
        · cases hp'; rw [hexp] at he'; cases he'; exact hlt

/-- C8 counterexample: a parsable token carrying `exp = 10^20` — far
outside the range the `datetime` type can represent — makes
`get_token_expiry` raise: the source computes
`datetime.fromtimestamp(exp)` and catches only `JWTError`, so the
`OverflowError`/`ValueError` propagates to the caller instead of the
claimed timestamp being returned. -/
theorem C8_get_token_expiry_overflow_cex :
    parseUnverified overflowToken = some overflowPayload ∧
    overflowPayload.exp = some 100000000000000000000 ∧
    get_token_expiry overflowToken = .error () := by
  refine ⟨rfl, rfl, ?_⟩
  rfl

/-- C8 (amended): `get_token_expiry` returns the `exp` claim's timestamp
for every parsable token whose `exp` claim lies within the range
`datetime.fromtimestamp` can represent — regardless of whether the token
is already expired, since the result does not depend on the current
time — and returns `None` when the token is unparsable or carries no
`exp` claim; for an `exp` outside that range the uncaught
`OverflowError`/`ValueError` propagates (only `JWTError` is caught). -/
theorem C8_get_token_expiry_spec (tok : TokenInput) :
    (∀ p e, parseUnverified tok = some p → p.exp = some e →
      -62135596800 ≤ e → e ≤ 253402300799 → get_token_expiry tok = .ok (some e)) ∧
    (parseUnverified tok = none → get_token_expiry tok = .ok none) ∧
    (∀ p, parseUnverified tok = some p → p.exp = none →
      get_token_expiry tok = .ok none) := by
  refine ⟨?_, ?_, ?_⟩
  · intro p e hp he h1 h2
    simp [get_token_expiry, hp, he, fromtimestampPy, h1, h2]
  · intro hp
    simp [get_token_expiry, hp]
  · intro p hp he
    simp [get_token_expiry, hp, he]

/-- Witness for C8's amended theorem: a parsable token with in-range
`exp = 1000` (an already-expired token at `now = 2000`, showing expiry
state is irrelevant) and an unparsable one. -/
theorem C8_get_token_expiry_spec_witness :
    get_token_expiry sampleToken = .ok (some 1000) ∧
      get_token_expiry (.malformed "not-a-jwt") = .ok none :=
  ⟨(C8_get_token_expiry_spec sampleToken).1 samplePayload 1000 rfl rfl
      (by decide) (by decide),
   (C8_get_token_expiry_spec (.malformed "not-a-jwt")).2.1 rfl⟩

/-- C2 counterexample: in Remote mode with fresh (empty) caches and the
key-set endpoint answering HTTP 500, `verify_token` does NOT surface the
trust-material failure to its caller as anything distinct from a
rejection — it returns yet another `success = False` result dict (the
generic `validation_error` shape, carrying the code `JWKS_FETCH_ERROR`
and the offending URL and status in `details`), exactly like any
`Rejected` outcome. -/
theorem C2_fetch_failure_is_plain_rejection_cex :
    (verify_token remoteValidator sampleSettings sampleEnv500 CacheState.initial 500
        sampleToken).1
      = .validationError "JWKS_FETCH_ERROR"
          (.fetchInfo 500 "http://issuer/api/v1/jwt/.well-known/jwks.json") ∧
    ((verify_token remoteValidator sampleSettings sampleEnv500 CacheState.initial 500
        sampleToken).1).success = false := by
  constructor <;> rfl

/-- C2 (amended): in Remote mode, when the key-set endpoint answers a
non-200 status and the JWKS cache is stale, `get_jwks` fails with a
raised `JWTValidationError` whose code is `JWKS_FETCH_ERROR` and whose
details record the offending URL and status; `verify_token` catches that
exception and returns it to the caller as a `success = False` result dict
carrying the same code and details — distinguishable from token
rejections only by its `error_code`, not surfaced as a distinct kind of
failure. -/
theorem C2_jwks_fetch_error_surfaced (v : Validator) (s : Settings) (env : Env)
    (st : CacheState) (now : Int) (tok : TokenInput) (status : Nat) (body : JwksDoc)
    (cfg : Config)
    (hmode : v.use_local = false)
    (hjwks : env.jwksResp = .resp status body)
    (hstatus : status ≠ 200)
    (hjcache : is_cache_valid v now st.jwks_cache_time = false)
    (hcfg : env.configResp = .resp 200 cfg)
    (hccache : is_cache_valid v now st.config_cache_time = false) :
    get_jwks v s env st now
        = .error ⟨"JWKS_FETCH_ERROR",
            .fetchInfo status (v.user_service_url ++ s.auth_jwks_endpoint)⟩ ∧
    (verify_token v s env st now tok).1
        = .validationError "JWKS_FETCH_ERROR"
            (.fetchInfo status (v.user_service_url ++ s.auth_jwks_endpoint)) ∧
    ((verify_token v s env st now tok).1).success = false := by
  have hfetch : fetch_jwks v s env
      = .error ⟨"JWKS_FETCH_ERROR",
          .fetchInfo status (v.user_service_url ++ s.auth_jwks_endpoint)⟩ := by
    simp [fetch_jwks, hjwks, hstatus]
  have hjwksstep : get_jwks v s env st now
      = .error ⟨"JWKS_FETCH_ERROR",
          .fetchInfo status (v.user_service_url ++ s.auth_jwks_endpoint)⟩ := by
    simp [get_jwks, hmode, hjcache, hfetch]
  refine ⟨hjwksstep, ?_, ?_⟩ <;>
    simp [verify_token, get_jwt_config, fetch_jwt_config, hmode, hccache, hcfg, get_jwks,
      hjcache, hfetch, VResult.success]

/-- Witness for C2's amended theorem at the concrete 500-answering
environment. -/
theorem C2_jwks_fetch_error_surfaced_witness :
    get_jwks remoteValidator sampleSettings sampleEnv500 CacheState.initial 500
        = .error ⟨"JWKS_FETCH_ERROR",
            .fetchInfo 500 "http://issuer/api/v1/jwt/.well-known/jwks.json"⟩ ∧
    (verify_token remoteValidator sampleSettings sampleEnv500 CacheState.initial 500
        sampleToken).1
        = .validationError "JWKS_FETCH_ERROR"
            (.fetchInfo 500 "http://issuer/api/v1/jwt/.well-known/jwks.json") ∧
    ((verify_token remoteValidator sampleSettings sampleEnv500 CacheState.initial 500
        sampleToken).1).success = false :=
  C2_jwks_fetch_error_surfaced remoteValidator sampleSettings sampleEnv500
    CacheState.initial 500 sampleToken 500 ⟨[]⟩
    ⟨some "HS256", some "svc", some "microservices"⟩
    rfl rfl (by decide) rfl rfl rfl

/-- C4 counterexample: a token signed with the validator's own trust
material (Local mode secret, matching algorithm, issuer and audience),
unexpired at `now = 500`, carrying `sub`, `username` and a list-valued
`roles` — i.e. satisfying every hypothesis of the round-trip claim — but
whose payload also carries `is_active: false`, is NOT accepted:
`verifyAsync` returns the `USER_INACTIVE` rejection. -/
theorem C4_roundtrip_cex :
    verify_token_async ⟨3600, 300, true, ""⟩ sampleSettings sampleEnvOk CacheState.initial
        500 (.ok false) inactiveToken
      = (.validationError "USER_INACTIVE" (.inactiveUser (some (.jstr "u1"))),
          CacheState.initial) ∧
    (VResult.validationError "USER_INACTIVE"
        (.inactiveUser (some (.jstr "u1")))).success = false := by
  constructor <;> rfl

/-- C4 (amended): round-trip acceptance in Local mode — for every token
signed with the validator's own trust material (the settings' secret and
algorithm), whose issuer and audience claims match the local
configuration, which is unexpired, carries `sub`, `username` and a
list-valued `roles`, AND whose `is_active` claim (if present) is truthy,
whose token-type claim (if present and truthy) is `"access"`, and which
the revocation store reports as not revoked, `verify_token_async` returns
the success result whose claims echo the input payload exactly, with an
absent `is_active` defaulting to `True` and an absent `is_superuser`
defaulting to `False` (see `userInfoOf`). -/
theorem C4_roundtrip_amended (v : Validator) (s : Settings) (env : Env) (st : CacheState)
    (now : Int) (raw : String) (p : Payload) (e : Int) (l : List String)
    (hmode : v.use_local = true)
    (hiss : p.iss = some s.app_name)
    (haud : p.aud = some "microservices")
    (hexp : p.exp = some e)
    (hfresh : now ≤ e)
    (hsub : p.sub.isSome = true)
    (huser : p.username.isSome = true)
    (hroles : p.roles = some (.jarr l))
    (hactive : truthy (p.is_active.getD (.jbool true)) = true)
    (htype : typeCheckFail p = none) :
    verify_token_async v s env st now (.ok false)
        (.signed raw p s.jwt_secret_key s.jwt_algorithm)
      = (.accepted (userInfoOf p), st) := by
  have hnotlt : ¬ e < now := by omega
  have hdec : jwtDecode now (.signed raw p s.jwt_secret_key s.jwt_algorithm)
      s.jwt_secret_key s.jwt_algorithm (localConfig s).issuer (localConfig s).audience
      = .ok p := by
    simp [jwtDecode, localConfig, hiss, haud, hexp, hnotlt]
  have hsub' : p.sub ≠ none := by
    intro hc; rw [hc] at hsub; simp at hsub
  have huser' : p.username ≠ none := by
    intro hc; rw [hc] at huser; simp at huser
  have hshape : validate_payload_fields p = .ok () := by
    simp [validate_payload_fields, hroles, isJList, hactive, hsub', huser']
  simp [verify_token_async, hmode, verify_token_local_async, hdec, hshape, htype]

/-- Witness for C4's amended theorem: the spec §8 scenario token is
accepted with its payload echoed back and the permissive defaults
applied. -/
theorem C4_roundtrip_amended_witness :
    verify_token_async ⟨3600, 300, true, ""⟩ sampleSettings sampleEnvOk CacheState.initial
        500 (.ok false) sampleToken
      = (.accepted (userInfoOf samplePayload), CacheState.initial) :=
  C4_roundtrip_amended ⟨3600, 300, true, ""⟩ sampleSettings sampleEnvOk CacheState.initial
    500 "hdr.pld.sig" samplePayload 1000 ["admin"]
    rfl rfl rfl rfl (by decide) rfl rfl rfl rfl rfl

/-- C5: the verification stages short-circuit strictly in order
signature → shape → semantics → revocation, in both pipelines.
Part 1 (Local): a token that decodes (valid signature) and passes the
shape check but whose type claim fails the semantic check yields the
`INVALID_TOKEN_TYPE` rejection for EVERY revocation-store outcome — in
particular when the store says the token is revoked.
Part 2 (Local): a token that fails signature decoding yields
`JWT_DECODE_ERROR` for every store outcome — the revocation check is
never evaluated.
Parts 3 and 4 state the same two facts for the Remote pipeline, for every
environment (in particular one whose revocation list contains the token's
fingerprint); there, additionally, the returned cache state's blacklist
fields are exactly the input's, showing the revocation list was never
even fetched. -/
theorem C5_stage_short_circuit :
    (∀ (s : Settings) (now : Int) (store : StoreOutcome) (tok : TokenInput)
        (p : Payload) (t : JValue),
        jwtDecode now tok s.jwt_secret_key s.jwt_algorithm (localConfig s).issuer
            (localConfig s).audience = .ok p →
        validate_payload_fields p = .ok () →
        typeCheckFail p = some t →
        verify_token_local_async s now store tok = .invalidTokenType t) ∧
    (∀ (s : Settings) (now : Int) (store : StoreOutcome) (tok : TokenInput),
        jwtDecode now tok s.jwt_secret_key s.jwt_algorithm (localConfig s).issuer
            (localConfig s).audience = .error () →
        verify_token_local_async s now store tok = .jwtDecodeError) ∧
    (∀ (v : Validator) (s : Settings) (env : Env) (st : CacheState) (now : Int)
        (tok : TokenInput) (cfg : Config) (jwks : JwksDoc) (key : List Nat)
        (p : Payload) (t : JValue),
        v.use_local = false →
        is_cache_valid v now st.config_cache_time = false →
        env.configResp = .resp 200 cfg →
        is_cache_valid v now st.jwks_cache_time = false →
        env.jwksResp = .resp 200 jwks →
        selectKey jwks = .secret key →
        jwtDecode now tok key (cfg.algorithm.getD "HS256") cfg.issuer cfg.audience = .ok p →
        validate_payload_fields p = .ok () →
        typeCheckFail p = some t →
        (verify_token v s env st now tok).1 = .invalidTokenType t ∧
        (verify_token v s env st now tok).2.blacklist_cache = st.blacklist_cache ∧
        (verify_token v s env st now tok).2.blacklist_cache_time
          = st.blacklist_cache_time) ∧
    (∀ (v : Validator) (s : Settings) (env : Env) (st : CacheState) (now : Int)
        (tok : TokenInput) (cfg : Config) (jwks : JwksDoc) (key : List Nat),
        v.use_local = false →
        is_cache_valid v now st.config_cache_time = false →
        env.configResp = .resp 200 cfg →
        is_cache_valid v now st.jwks_cache_time = false →
        env.jwksResp = .resp 200 jwks →
        selectKey jwks = .secret key →
        jwtDecode now tok key (cfg.algorithm.getD "HS256") cfg.issuer cfg.audience
          = .error () →
        (verify_token v s env st now tok).1 = .jwtDecodeError ∧
        (verify_token v s env st now tok).2.blacklist_cache = st.blacklist_cache ∧
        (verify_token v s env st now tok).2.blacklist_cache_time
          = st.blacklist_cache_time) := by
  refine ⟨?_, ?_, ?_, ?_⟩
  · intro s now store tok p t hdec hshape htype
    simp [verify_token_local_async, hdec, hshape, htype]
  · intro s now store tok hdec
    simp [verify_token_local_async, hdec]
  · intro v s env st now tok cfg jwks key p t hmode hcc hcfg hjc hjwks hkey hdec hshape htype
    refine ⟨?_, ?_, ?_⟩ <;>
      simp [verify_token, get_jwt_config, get_jwks, fetch_jwt_config, fetch_jwks,
        hmode, hcc, hcfg, hjc, hjwks, hkey, hdec, hshape, htype]
  · intro v s env st now tok cfg jwks key hmode hcc hcfg hjc hjwks hkey hdec
    refine ⟨?_, ?_, ?_⟩ <;>
      simp [verify_token, get_jwt_config, get_jwks, fetch_jwt_config, fetch_jwks,
        hmode, hcc, hcfg, hjc, hjwks, hkey, hdec]

/-- Witness for C5: a valid-signature, valid-shape `type:"refresh"` token
is rejected `INVALID_TOKEN_TYPE` even when the Local revocation store
reports it revoked, and a malformed token is rejected `JWT_DECODE_ERROR`
without the revocation store's revoked verdict ever mattering. -/
theorem C5_stage_short_circuit_witness :
    verify_token_local_async sampleSettings 500 (.ok true) refreshToken
        = .invalidTokenType (.jstr "refresh") ∧
    verify_token_local_async sampleSettings 500 (.ok true) (.malformed "garbage")
        = .jwtDecodeError :=
  ⟨C5_stage_short_circuit.1 sampleSettings 500 (.ok true) refreshToken refreshPayload
      (.jstr "refresh") rfl rfl rfl,
   C5_stage_short_circuit.2.1 sampleSettings 500 (.ok true) (.malformed "garbage") rfl⟩

theorem get_jwt_config_keeps_blacklist (v : Validator) (s : Settings) (env : Env)
    (st : CacheState) (now : Int) (cfgOpt : Option Config) (st' : CacheState)
    (h : get_jwt_config v s env st now = .ok (cfgOpt, st')) :
    st'.blacklist_cache = st.blacklist_cache ∧
      st'.blacklist_cache_time = st.blacklist_cache_time := by
  unfold get_jwt_config at h
  split at h
  · cases h; exact ⟨rfl, rfl⟩
  · split at h
    · cases hf : fetch_jwt_config v s env with
      | error e => rw [hf] at h; cases h
      | ok cfg => rw [hf] at h; cases h; exact ⟨rfl, rfl⟩
    · cases h; exact ⟨rfl, rfl⟩

theorem get_jwks_keeps_blacklist (v : Validator) (s : Settings) (env : Env)
    (st : CacheState) (now : Int) (jwksOpt : Option JwksDoc) (st' : CacheState)
    (h : get_jwks v s env st now = .ok (jwksOpt, st')) :
    st'.blacklist_cache = st.blacklist_cache ∧
      st'.blacklist_cache_time = st.blacklist_cache_time := by
  unfold get_jwks at h
  split at h
  · cases h; exact ⟨rfl, rfl⟩
  · split at h
    · cases hf : fetch_jwks v s env with
      | error e => rw [hf] at h; cases h
      | ok doc => rw [hf] at h; cases h; exact ⟨rfl, rfl⟩
    · cases h; exact ⟨rfl, rfl⟩

theorem verify_token_no_blacklist_result (v : Validator) (s : Settings) (env : Env)
    (st : CacheState) (now : Int) (tok : TokenInput)
    (hmode : v.use_local = false)
    (hopen : ∀ st2 : CacheState, st2.blacklist_cache_time = st.blacklist_cache_time →
      (is_token_blacklisted v env st2 now tok).1 = false) :
    (verify_token v s env st now tok).1 ≠ .tokenBlacklisted := by
  unfold verify_token
  rw [if_neg (by simp [hmode])]
  split
  · simp
  next cfgOpt st1 hcfg =>
    split
    · simp
    next cfg =>
      split
      · simp
      next jwksOpt st2 hjw =>
        split
        · simp
        next jwks =>
          split
          · simp
          · simp
          next key hks =>
            split
            · simp
            next p hdec =>
              split
              · simp
              next u hval =>
                split
                next t hty => simp
                next hty =>
                  obtain ⟨hb1, ht1⟩ := get_jwt_config_keeps_blacklist _ _ _ _ _ _ _ hcfg
                  obtain ⟨hb2, ht2⟩ := get_jwks_keeps_blacklist _ _ _ _ _ _ _ hjw
                  have hbl2 : (is_token_blacklisted v env st2 now tok).1 = false :=
                    hopen st2 (by rw [ht2, ht1])
                  simp [hbl2]

/-- C3: the revocation-check failure policy is asymmetric by mode, as the
spec demands.  Parts 1-2 (Remote, fail-open): when the revocation
endpoint fails (transport exception or non-200 status) and the blacklist
cache is stale, `_is_token_blacklisted` degrades to the empty fingerprint
set and answers "not revoked", and `verify_token` can never return the
`TOKEN_BLACKLISTED` rejection — verification proceeds.  Parts 3-4 (Local,
fail-closed; the store `JWTService.is_blacklisted` is modelled from the
spec since it is not under `src/`): when the store raises, the result is
never a success — the error is never silently treated as not-revoked —
and for a token that actually reaches the revocation stage (signature,
shape and type checks pass) the store error surfaces to the caller as the
`VALIDATION_EXCEPTION` failure result. -/
theorem C3_revocation_failure_asymmetry :
    (∀ (v : Validator) (env : Env) (st : CacheState) (now : Int) (tok : TokenInput),
        (env.blacklistResp = .exn ∨
          ∃ status body, env.blacklistResp = .resp status body ∧ status ≠ 200) →
        is_cache_valid v now st.blacklist_cache_time = false →
        (is_token_blacklisted v env st now tok).1 = false) ∧
    (∀ (v : Validator) (s : Settings) (env : Env) (st : CacheState) (now : Int)
        (tok : TokenInput),
        v.use_local = false →
        (env.blacklistResp = .exn ∨
          ∃ status body, env.blacklistResp = .resp status body ∧ status ≠ 200) →
        is_cache_valid v now st.blacklist_cache_time = false →
        (verify_token v s env st now tok).1 ≠ .tokenBlacklisted) ∧
    (∀ (s : Settings) (now : Int) (tok : TokenInput) (err : Unit),
        (verify_token_local_async s now (.error err) tok).success = false) ∧
    (∀ (s : Settings) (now : Int) (tok : TokenInput) (err : Unit) (p : Payload),
        jwtDecode now tok s.jwt_secret_key s.jwt_algorithm (localConfig s).issuer
            (localConfig s).audience = .ok p →
        validate_payload_fields p = .ok () →
        typeCheckFail p = none →
        verify_token_local_async s now (.error err) tok = .validationException) := by
  have hfail : ∀ (env : Env),
      (env.blacklistResp = .exn ∨
        ∃ status body, env.blacklistResp = .resp status body ∧ status ≠ 200) →
      fetch_blacklist env = [] := by
    intro env h
    rcases h with h | ⟨status, body, h, hs⟩ <;> simp [fetch_blacklist, h]
    intro h200; exact absurd h200 hs
  have hpart1 : ∀ (v : Validator) (env : Env) (st : CacheState) (now : Int)
      (tok : TokenInput),
      (env.blacklistResp = .exn ∨
        ∃ status body, env.blacklistResp = .resp status body ∧ status ≠ 200) →
      is_cache_valid v now st.blacklist_cache_time = false →
      (is_token_blacklisted v env st now tok).1 = false := by
    intro v env st now tok hf hstale
    simp [is_token_blacklisted, get_blacklist_cache, hstale, hfail env hf]
  refine ⟨hpart1, ?_, ?_, ?_⟩
  · intro v s env st now tok hmode hf hstale
    refine verify_token_no_blacklist_result v s env st now tok hmode ?_
    intro st2 ht2
    exact hpart1 v env st2 now tok hf (by rw [ht2]; exact hstale)
  · intro s now tok err
    unfold verify_token_local_async
    split
    · simp [VResult.success]
    next p hdec =>
      split
      · simp [VResult.success]
      next u hval =>
        split
        next t hty => simp [VResult.success]
        next hty => simp [VResult.success]
  · intro s now tok err p hdec hval hty
    simp [verify_token_local_async, hdec, hval, hty]

/-- Witness for C3: concretely, in Remote mode with the revocation
endpoint answering 500 and a stale cache the sample token is reported
not revoked, and in Local mode a raising store turns the same
otherwise-valid token into the `VALIDATION_EXCEPTION` failure. -/
theorem C3_revocation_failure_asymmetry_witness :
    (is_token_blacklisted remoteValidator
        ⟨.resp 200 ⟨[]⟩, .resp 200 ⟨some "HS256", some "svc", some "microservices"⟩,
         .resp 500 ["fp"], fun _ => "fp"⟩
        CacheState.initial 500 sampleToken).1 = false ∧
    verify_token_local_async sampleSettings 500 (.error ()) sampleToken
      = .validationException :=
  ⟨C3_revocation_failure_asymmetry.1 remoteValidator
      ⟨.resp 200 ⟨[]⟩, .resp 200 ⟨some "HS256", some "svc", some "microservices"⟩,
       .resp 500 ["fp"], fun _ => "fp"⟩
      CacheState.initial 500 sampleToken
      (Or.inr ⟨500, ["fp"], rfl, by decide⟩) rfl,
   C3_revocation_failure_asymmetry.2.2.2 sampleSettings 500 sampleToken () samplePayload
      rfl rfl rfl⟩

theorem validate_payload_fields_code (p : Payload) (e : VErr)
    (h : validate_payload_fields p = .error e) :
    e.code = "MISSING_REQUIRED_FIELD" ∨ e.code = "INVALID_FIELD_TYPE"
      ∨ e.code = "USER_INACTIVE" := by
  unfold validate_payload_fields at h
  split at h
  · cases h; simp
  · split at h
    · cases h; simp
    · split at h
      · cases h; simp
      · split at h
        · cases h; simp
        · split at h
          · cases h; simp
          · cases h

theorem fetch_jwt_config_code (v : Validator) (s : Settings) (env : Env) (e : VErr)
    (h : fetch_jwt_config v s env = .error e) :
    e.code = "CONFIG_FETCH_ERROR" ∨ e.code = "CONFIG_FETCH_EXCEPTION" := by
  unfold fetch_jwt_config at h
  split at h
  · split at h
    · cases h
    · cases h; simp
  · cases h; simp

theorem fetch_jwks_code (v : Validator) (s : Settings) (env : Env) (e : VErr)
    (h : fetch_jwks v s env = .error e) :
    e.code = "JWKS_FETCH_ERROR" ∨ e.code = "JWKS_FETCH_EXCEPTION" := by
  unfold fetch_jwks at h
  split at h
  · split at h
    · cases h
    · cases h; simp
  · cases h; simp

theorem get_jwt_config_code (v : Validator) (s : Settings) (env : Env) (st : CacheState)
    (now : Int) (e : VErr) (h : get_jwt_config v s env st now = .error e) :
    e.code = "CONFIG_FETCH_ERROR" ∨ e.code = "CONFIG_FETCH_EXCEPTION" := by
  unfold get_jwt_config at h
  split at h
  · cases h
  · split at h
    · split at h
      next e' hf =>
        cases h
        exact fetch_jwt_config_code _ _ _ _ hf
      next cfg hf => cases h
    · cases h

theorem get_jwks_code (v : Validator) (s : Settings) (env : Env) (st : CacheState)
    (now : Int) (e : VErr) (h : get_jwks v s env st now = .error e) :
    e.code = "JWKS_FETCH_ERROR" ∨ e.code = "JWKS_FETCH_EXCEPTION" := by
  unfold get_jwks at h
  split at h
  · cases h
  · split at h
    · split at h
      next e' hf =>
        cases h
        exact fetch_jwks_code _ _ _ _ hf
      next doc hf => cases h
    · cases h

theorem verify_token_wellFormed (v : Validator) (s : Settings) (env : Env)
    (st : CacheState) (now : Int) (tok : TokenInput) :
    resultWellFormed (verify_token v s env st now tok).1 := by
  unfold verify_token
  split
  · simp [resultWellFormed, VResult.success, VResult.errorCode, knownErrorCodes]
  · split
    next e hcfg =>
      rcases get_jwt_config_code _ _ _ _ _ _ hcfg with h | h <;>
        simp [resultWellFormed, VResult.success, VResult.errorCode, knownErrorCodes, h]
    next cfgOpt st1 hcfg =>
      split
      · simp [resultWellFormed, VResult.success, VResult.errorCode, knownErrorCodes]
      next cfg =>
        split
        next e hjw =>
          rcases get_jwks_code _ _ _ _ _ _ hjw with h | h <;>
            simp [resultWellFormed, VResult.success, VResult.errorCode, knownErrorCodes, h]
        next jwksOpt st2 hjw =>
          split
          · simp [resultWellFormed, VResult.success, VResult.errorCode, knownErrorCodes]
          next jwks =>
            split
            · simp [resultWellFormed, VResult.success, VResult.errorCode, knownErrorCodes]
            · simp [resultWellFormed, VResult.success, VResult.errorCode, knownErrorCodes]
            next key hks =>
              split
              · simp [resultWellFormed, VResult.success, VResult.errorCode, knownErrorCodes]
              next p hdec =>
                split
                next e hval =>
                  rcases validate_payload_fields_code _ _ hval with h | h | h <;>
                    simp [resultWellFormed, VResult.success, VResult.errorCode,
                      knownErrorCodes, h]
                next u hval =>
                  split
                  next t hty =>
                    simp [resultWellFormed, VResult.success, VResult.errorCode,
                      knownErrorCodes]
                  next hty =>
                    split
                    next bl st3 heq =>
                      cases bl
                      · exact Or.inl ⟨rfl, rfl, userInfoOf p, rfl⟩
                      · simp [resultWellFormed, VResult.success, VResult.errorCode,
                          knownErrorCodes]

theorem verify_token_local_async_wellFormed (s : Settings) (now : Int)
    (store : StoreOutcome) (tok : TokenInput) :
    resultWellFormed (verify_token_local_async s now store tok) := by
  unfold verify_token_local_async
  split
  · simp [resultWellFormed, VResult.success, VResult.errorCode, knownErrorCodes]
  next p hdec =>
    split
    next e hval =>
      rcases validate_payload_fields_code _ _ hval with h | h | h <;>
        simp [resultWellFormed, VResult.success, VResult.errorCode, knownErrorCodes, h]
    next u hval =>
      split
      next t hty =>
        simp [resultWellFormed, VResult.success, VResult.errorCode, knownErrorCodes]
      next hty =>
        split
        · simp [resultWellFormed, VResult.success, VResult.errorCode, knownErrorCodes]
        · simp [resultWellFormed, VResult.success, VResult.errorCode, knownErrorCodes]
        · exact Or.inl ⟨rfl, rfl, userInfoOf p, rfl⟩

/-- C9: totality of the public verification surface.  Both `verify_token`
and `verify_token_async` are total functions of the embedding (the
source wraps every path in `try/except`, returning a dict from each
handler — unexpected internal errors as the `VALIDATION_EXCEPTION`
result), and every value they can return is a structured result: either
the success dict (success flag true, no error code) or a failure dict
(success flag false with one of the subsystem's error codes,
`VALIDATION_EXCEPTION` included — see `knownErrorCodes`). -/
theorem C9_public_surface_total (v : Validator) (s : Settings) (env : Env)
    (st : CacheState) (now : Int) (store : StoreOutcome) (tok : TokenInput) :
    resultWellFormed (verify_token v s env st now tok).1 ∧
    resultWellFormed (verify_token_async v s env st now store tok).1 := by
  refine ⟨verify_token_wellFormed v s env st now tok, ?_⟩
  unfold verify_token_async
  split
  · exact verify_token_local_async_wellFormed s now store tok
  · exact verify_token_wellFormed v s env st now tok
